import Mathlib

/-!
Verification of the PyTeal lowering core (`pyteal/ast/global_.py`,
`pyteal/ast/int.py`): a shallow embedding of the expression nodes
(`Global`, `Int`, `EnumInt`), the global-field registry, and the
lowering of each node to a single-instruction IR block, together with
proofs of the specified properties.

Support modules of the repository (`pyteal/types.py`, `pyteal/ir`,
`pyteal/errors.py`, `pyteal/compiler.py`, `pyteal/ast/leafexpr.py`) are
not part of the provided source; the definitions below that stand in for
them are modelled from the spec and carry a doc comment saying so.
-/

namespace PyTeal

/-- Modelled from the spec: the closed set of result types attached to
expression nodes (`pyteal/types.py` is missing from the source). Only
the two values the spec observes are needed here. -/
inductive TealType where
  | uint64
  | bytes
deriving DecidableEq, Repr

/-- Modelled from the spec: the execution-mode tag carried by the
Lowering Context (its values are out of the spec's scope; two generic
modes suffice). -/
inductive Mode where
  | signature
  | application
deriving DecidableEq, Repr

/-- Modelled from the spec: the Lowering Context (`CompileOptions` in
`pyteal/compiler.py`, missing from the source). It carries the target
bytecode version and an execution-mode tag, and is read, never written,
by the nodes it is passed to. -/
structure CompileOptions where
  mode : Mode
  version : Nat
deriving DecidableEq, Repr

/-- Modelled from the spec: the opcode enumeration (`pyteal/ir/ops.py`
is missing from the source). Only the two opcodes used by this core are
needed: `int` (push integer constant) and `global_` (read a global
property). -/
inductive Op where
  | int
  | global_
deriving DecidableEq, Repr

/-- An operand of an instruction: a literal integer or a literal
string (a field's canonical name). -/
inductive Operand where
  | int (n : Nat)
  | str (s : String)
deriving DecidableEq, Repr

/-- Modelled from the spec: one emitted instruction (`TealOp` in
`pyteal/ir`, missing from the source): an opcode with an ordered list
of operands. The diagnostics-only source-node back-reference is
omitted: the spec forbids using it for equality. -/
structure TealOp where
  op : Op
  args : List Operand
deriving DecidableEq, Repr

/-- Modelled from the spec: the minimal IR unit (`TealBlock` in
`pyteal/ir`, missing from the source): the instruction sequence of one
lowered leaf node. -/
structure TealBlock where
  ops : List TealOp
deriving DecidableEq, Repr

/-- Modelled from the spec: `TealBlock.FromOp` wraps exactly one
instruction into an IR unit. The source also threads the lowering
context through this call for linking purposes; the context does not
affect the wrapped instruction content, so it is omitted here. -/
def TealBlock.FromOp (op : TealOp) : TealBlock :=
  ⟨[op]⟩

/-- Modelled from the spec: the error taxonomy of `pyteal/errors.py`
(missing from the source). The source raises `TealInputError` with a
distinguishing message at each construction-failure site; the spec
describes the failures as distinct kinds, so each raise site maps to
one constructor, the message kept as payload. `unsupportedVersion`
structurally carries the canonical field name, the minimum version and
the requested version, as the spec requires. -/
inductive TealError where
  | invalidLiteralType (msg : String)
  | invalidLiteralRange (msg : String)
  | unknownEnumValue (msg : String)
  | unsupportedVersion (field : String) (minVersion : Nat) (requested : Nat)
deriving DecidableEq, Repr

/-- Modelled from the spec: `verifyFieldVersion` of `pyteal/errors.py`
(missing from the source): succeeds iff the context's version is at
least the field's minimum version, otherwise fails with
`UnsupportedVersionError` carrying the canonical name, the minimum
version and the requested version. -/
def verifyFieldVersion (fieldName : String) (minVersion : Nat) (version : Nat) :
    Except TealError Unit :=
  if version < minVersion then
    .error (.unsupportedVersion fieldName minVersion version)
  else
    .ok ()

/-- One row of the global-field registry: `GlobalField` of
`pyteal/ast/global_.py`, an enum member carrying a numeric id, the
canonical name, the result type and the minimum version. -/
structure GlobalField where
  id : Nat
  arg_name : String
  ret_type : TealType
  min_version : Nat
deriving DecidableEq, Repr

def GlobalField.min_txn_fee : GlobalField := ⟨0, "MinTxnFee", .uint64, 2⟩

def GlobalField.min_balance : GlobalField := ⟨1, "MinBalance", .uint64, 2⟩

def GlobalField.max_txn_life : GlobalField := ⟨2, "MaxTxnLife", .uint64, 2⟩

def GlobalField.zero_address : GlobalField := ⟨3, "ZeroAddress", .bytes, 2⟩

def GlobalField.group_size : GlobalField := ⟨4, "GroupSize", .uint64, 2⟩

def GlobalField.logic_sig_version : GlobalField := ⟨5, "LogicSigVersion", .uint64, 2⟩

def GlobalField.round : GlobalField := ⟨6, "Round", .uint64, 2⟩

def GlobalField.latest_timestamp : GlobalField := ⟨7, "LatestTimestamp", .uint64, 2⟩

def GlobalField.current_app_id : GlobalField := ⟨8, "CurrentApplicationID", .uint64, 2⟩

def GlobalField.creator_address : GlobalField := ⟨9, "CreatorAddress", .bytes, 3⟩

/-- The registry: every member of the `GlobalField` enum, in
declaration order. -/
def GlobalField.all : List GlobalField :=
  [ GlobalField.min_txn_fee, GlobalField.min_balance,
    GlobalField.max_txn_life, GlobalField.zero_address,
    GlobalField.group_size, GlobalField.logic_sig_version,
    GlobalField.round, GlobalField.latest_timestamp,
    GlobalField.current_app_id, GlobalField.creator_address ]

/-- `GlobalField.type_of`. -/
def GlobalField.type_of (f : GlobalField) : TealType :=
  f.ret_type

/-- `Global` of `pyteal/ast/global_.py`: an expression that accesses a
global property, holding its field descriptor. -/
structure Global where
  field : GlobalField
deriving DecidableEq, Repr

/-- `Global.__teal__`: verify the field's minimum version against the
context, then emit one `global` instruction whose operand is the
field's canonical name. The version check happens before the
instruction is built, so a version failure produces no instruction. -/
def Global.teal (g : Global) (options : CompileOptions) : Except TealError TealBlock := do
  verifyFieldVersion g.field.arg_name g.field.min_version options.version
  let op : TealOp := ⟨Op.global_, [Operand.str g.field.arg_name]⟩
  return TealBlock.FromOp op

/-- `Global.__str__`. -/
def Global.str (g : Global) : String :=
  "(Global " ++ g.field.arg_name ++ ")"

/-- `Global.type_of`. -/
def Global.type_of (g : Global) : TealType :=
  g.field.type_of

/-- `Global.group_size` classmethod factory. -/
def Global.group_size : Global := ⟨GlobalField.group_size⟩

/-- `Global.creator_address` classmethod factory. -/
def Global.creator_address : Global := ⟨GlobalField.creator_address⟩

/-- The Python values an `Int` constructor can receive: an arbitrary
precision integer, or a value of some other runtime type. Python's
`bool` is listed separately because `type(True) is int` is false even
though `bool` subclasses `int`. -/
inductive PyVal where
  | int (n : ℤ)
  | bool (b : Bool)
  | str (s : String)
  | float
  | none
deriving DecidableEq, Repr

/-- The runtime type name of a `PyVal`, used in the wrong-kind error
message (`"invalid input type {} to Int"`). -/
def PyVal.typeName : PyVal → String
  | .int _ => "int"
  | .bool _ => "bool"
  | .str _ => "str"
  | .float => "float"
  | .none => "NoneType"

/-- `Int` of `pyteal/ast/int.py`: an expression that represents a
uint64; its stored value is in range by construction. -/
structure Int where
  value : Nat
deriving DecidableEq, Repr

/-- `Int.__init__`: reject inputs whose exact runtime type is not
`int` (booleans included), then range-check `0 <= value < 2**64`;
out-of-range integers fail with the range error. The checks follow the
source's order: the type test first, then the range test. -/
def Int.init (value : PyVal) : Except TealError Int :=
  match value with
  | .int n =>
      if 0 ≤ n ∧ n < 2 ^ 64 then
        .ok ⟨n.toNat⟩
      else
        .error (.invalidLiteralRange ("Int " ++ toString n ++ " is out of range"))
  | v => .error (.invalidLiteralType ("invalid input type " ++ v.typeName ++ " to Int"))

/-- `Int.__teal__`: emit one `int` instruction carrying the stored
value. Total: lowering a constructed `Int` cannot fail. -/
def Int.teal (i : Int) : TealBlock :=
  TealBlock.FromOp ⟨Op.int, [Operand.int i.value]⟩

/-- `Int.__str__`. -/
def Int.str (i : Int) : String :=
  "(Int: " ++ toString i.value ++ ")"

/-- `Int.type_of`. -/
def Int.type_of (_ : Int) : TealType :=
  TealType.uint64

/-- `intEnumValues` of `pyteal/ast/int.py`: the single flat enum
literal table, covering the OnComplete values and the TxnType values,
in the source's order. -/
def intEnumValues : List (String × Nat) :=
  [ ("NoOp", 0), ("OptIn", 1), ("CloseOut", 2), ("ClearState", 3),
    ("UpdateApplication", 4), ("DeleteApplication", 5),
    ("unknown", 0), ("pay", 1), ("keyreg", 2), ("acfg", 3),
    ("axfer", 4), ("afrz", 5), ("appl", 6) ]

/-- Dictionary lookup in the enum literal table (exact match on
name). -/
def enumLookup (name : String) : Option Nat :=
  intEnumValues.lookup name

/-- `EnumInt` of `pyteal/ast/int.py`: an expression referencing a
uint64 enum value by symbolic name. -/
structure EnumInt where
  name : String
deriving DecidableEq, Repr

/-- `EnumInt.__init__`: names are resolved against the table at
construction time; an absent name fails immediately with the
unknown-enum-value error, producing no node. -/
def EnumInt.init (name : String) : Except TealError EnumInt :=
  if (enumLookup name).isSome then
    .ok ⟨name⟩
  else
    .error (.unknownEnumValue ("Unknown int enum value: " ++ name))

/-- `EnumInt.__teal__`: emit one `int` instruction carrying the
table's value for the stored name. The dictionary indexing
`intEnumValues[self.name]` is partial in Python, so the result is an
`Option`; it is `some` for every constructed node. -/
def EnumInt.teal (e : EnumInt) : Option TealBlock :=
  (enumLookup e.name).map fun v => TealBlock.FromOp ⟨Op.int, [Operand.int v]⟩

/-- `EnumInt.__str__`. -/
def EnumInt.str (e : EnumInt) : String :=
  "(IntEnum: " ++ e.name ++ ")"

/-- `EnumInt.type_of`. -/
def EnumInt.type_of (_ : EnumInt) : TealType :=
  TealType.uint64

/-- The polymorphic expression-node sum over the three node shapes of
this core. -/
inductive ExprNode where
  | global (g : Global)
  | intLit (i : Int)
  | enumInt (e : EnumInt)
deriving DecidableEq, Repr

/-- `type_of` over the node sum: a total structural function that
takes no Lowering Context. -/
def ExprNode.type_of : ExprNode → TealType
  | .global g => g.type_of
  | .intLit i => i.type_of
  | .enumInt e => e.type_of

/-- Lowering over the node sum, with the node's (possibly updated)
state returned alongside the result so that absence of mutation is
provable: the source's `__teal__` methods never write to `self`, so
the returned node is always the input node. A missing enum name at
lowering time (impossible for constructed nodes) surfaces as the
unknown-enum-value error. -/
def ExprNode.lower : ExprNode → CompileOptions → Except TealError TealBlock × ExprNode
  | .global g, options => (g.teal options, .global g)
  | .intLit i, _ => (.ok i.teal, .intLit i)
  | .enumInt e, _ =>
      (match e.teal with
        | some b => .ok b
        | none => .error (.unknownEnumValue ("Unknown int enum value: " ++ e.name)),
       .enumInt e)

/-- C1: for every registered global property with minimum version `m`,
lowering its `Global` node under a context with version `≥ m` succeeds
with exactly one instruction whose operand is the canonical name, and
lowering under version `< m` fails with `UnsupportedVersionError`
carrying the canonical name, `m` and the requested version, producing
no instruction. -/
theorem global_lowering_version_gate
    (f : GlobalField) (_hf : f ∈ GlobalField.all) (options : CompileOptions) :
    (f.min_version ≤ options.version →
      ∃ b : TealBlock, Global.teal ⟨f⟩ options = .ok b ∧
        b.ops = [⟨Op.global_, [Operand.str f.arg_name]⟩]) ∧
    (options.version < f.min_version →
      Global.teal ⟨f⟩ options =
        .error (.unsupportedVersion f.arg_name f.min_version options.version)) := by
  constructor
  · intro h
    refine ⟨TealBlock.FromOp ⟨Op.global_, [Operand.str f.arg_name]⟩, ?_, rfl⟩
    simp [Global.teal, verifyFieldVersion, Nat.not_lt.mpr h, Except.bind]
  · intro h
    simp [Global.teal, verifyFieldVersion, h, Except.bind]

/-- Witness for C1: instantiated at the `round` field (minimum
version 2) under contexts of version 2 and 1. -/
theorem global_lowering_version_gate_witness :
    (∃ b : TealBlock,
      Global.teal ⟨GlobalField.round⟩ ⟨Mode.application, 2⟩ = .ok b ∧
        b.ops = [⟨Op.global_, [Operand.str "Round"]⟩]) ∧
    Global.teal ⟨GlobalField.round⟩ ⟨Mode.application, 1⟩ =
      .error (.unsupportedVersion "Round" 2 1) :=
  ⟨(global_lowering_version_gate GlobalField.round (by decide)
      ⟨Mode.application, 2⟩).1 (by decide),
   (global_lowering_version_gate GlobalField.round (by decide)
      ⟨Mode.application, 1⟩).2 (by decide)⟩

/-- C6: the registry gives "group size" id-name `GroupSize`, minimum
version 2, and "creator address" name `CreatorAddress`, minimum
version 3 and byte-string result type; lowering `group_size` fails
under version 1 with `UnsupportedVersionError("GroupSize", 2, 1)` and
succeeds under version 2 with operand `"GroupSize"`; lowering
`creator_address` fails under version 2 and succeeds under version 3
with operand `"CreatorAddress"`, in every execution mode. -/
theorem group_size_creator_address_scenarios (m : Mode) :
    GlobalField.group_size.min_version = 2 ∧
    GlobalField.group_size.arg_name = "GroupSize" ∧
    GlobalField.creator_address.min_version = 3 ∧
    GlobalField.creator_address.arg_name = "CreatorAddress" ∧
    Global.creator_address.type_of = TealType.bytes ∧
    Global.teal Global.group_size ⟨m, 1⟩ =
      .error (.unsupportedVersion "GroupSize" 2 1) ∧
    Global.teal Global.group_size ⟨m, 2⟩ =
      .ok ⟨[⟨Op.global_, [Operand.str "GroupSize"]⟩]⟩ ∧
    Global.teal Global.creator_address ⟨m, 2⟩ =
      .error (.unsupportedVersion "CreatorAddress" 3 2) ∧
    Global.teal Global.creator_address ⟨m, 3⟩ =
      .ok ⟨[⟨Op.global_, [Operand.str "CreatorAddress"]⟩]⟩ := by
  refine ⟨rfl, rfl, rfl, rfl, rfl, ?_, ?_, ?_, ?_⟩ <;> rfl

/-- C8: in the global-field registry, numeric ids are pairwise
distinct and canonical names are pairwise distinct. -/
theorem globalField_ids_and_names_unique :
    (GlobalField.all.map GlobalField.id).Nodup ∧
    (GlobalField.all.map GlobalField.arg_name).Nodup := by
  decide

/-- Equality of `Except` results is decidable when it is on both
sides; needed to evaluate constructor outcomes on concrete inputs. -/
instance {ε α : Type} [DecidableEq ε] [DecidableEq α] : DecidableEq (Except ε α) := fun a b =>
  match a, b with
  | .error x, .error y =>
      if h : x = y then .isTrue (by rw [h]) else .isFalse (by simp [h])
  | .error _, .ok _ => .isFalse (by simp)
  | .ok _, .error _ => .isFalse (by simp)
  | .ok x, .ok y =>
      if h : x = y then .isTrue (by rw [h]) else .isFalse (by simp [h])

/-- C2: for every entry of the enum literal table, constructing an
`EnumInt` with the entry's name succeeds, constructing an `Int` with
the entry's value succeeds, and the two nodes lower to exactly the
same instruction block. -/
theorem enumInt_lowers_like_int
    (p : String × Nat) (hp : p ∈ intEnumValues) :
    EnumInt.init p.1 = .ok ⟨p.1⟩ ∧
    Int.init (.int (p.2 : ℤ)) = .ok ⟨p.2⟩ ∧
    EnumInt.teal ⟨p.1⟩ = some (Int.teal ⟨p.2⟩) := by
  fin_cases hp <;> decide

/-- Witness for C2: the `"OptIn"` entry, whose value is 1, so
`EnumInt "OptIn"` lowers to the same instruction as `Int 1`. -/
theorem enumInt_lowers_like_int_witness :
    EnumInt.init "OptIn" = .ok ⟨"OptIn"⟩ ∧
    Int.init (.int 1) = .ok ⟨1⟩ ∧
    EnumInt.teal ⟨"OptIn"⟩ = some (Int.teal ⟨1⟩) :=
  enumInt_lowers_like_int ("OptIn", 1) (by decide)

/-- C3: for every integer `v` with `0 ≤ v < 2^64`, `Int` construction
succeeds, the node's `type_of` is the unsigned-64-bit type, and its
diagnostic string contains the decimal form of `v`. -/
theorem int_construction_in_range (v : ℕ) (h1 : v < 2 ^ 64) :
    Int.init (.int (v : ℤ)) = .ok ⟨v⟩ ∧
    Int.type_of ⟨v⟩ = TealType.uint64 ∧
    ∃ pre post, Int.str ⟨v⟩ = pre ++ toString v ++ post := by
  have hc : (0 : ℤ) ≤ (v : ℤ) ∧ (v : ℤ) < 2 ^ 64 :=
    ⟨Int.natCast_nonneg v, by exact_mod_cast h1⟩
  refine ⟨?_, rfl, "(Int: ", ")", rfl⟩
  simp [Int.init, hc.1, hc.2]
  omega

/-- Witness for C3: the largest representable value `2^64 - 1`
constructs successfully. -/
theorem int_construction_in_range_witness :
    Int.init (.int ((18446744073709551615 : ℕ) : ℤ)) =
      .ok ⟨18446744073709551615⟩ ∧
    Int.type_of ⟨18446744073709551615⟩ = TealType.uint64 ∧
    ∃ pre post,
      Int.str ⟨18446744073709551615⟩ =
        pre ++ toString (18446744073709551615 : ℕ) ++ post :=
  int_construction_in_range 18446744073709551615 (by decide)

/-- C4: `Int` construction fails with the range error on every
negative or `≥ 2^64` integer and with the wrong-kind error on every
non-integer input, producing no node in either case; and lowering is
total on every successfully constructed node, always yielding exactly
one instruction. -/
theorem int_construction_failures :
    (∀ n : ℤ, n < 0 ∨ 2 ^ 64 ≤ n →
      Int.init (.int n) =
        .error (.invalidLiteralRange ("Int " ++ toString n ++ " is out of range"))) ∧
    (∀ v : PyVal, (∀ n : ℤ, v ≠ .int n) →
      Int.init v =
        .error (.invalidLiteralType ("invalid input type " ++ v.typeName ++ " to Int"))) ∧
    (∀ v : PyVal, ∀ i : Int, Int.init v = .ok i → (Int.teal i).ops.length = 1) := by
  refine ⟨?_, ?_, ?_⟩
  · intro n hn
    have : ¬(0 ≤ n ∧ n < 2 ^ 64) := by omega
    simp [Int.init, this]
    omega
  · intro v hv
    cases v with
    | int n => exact absurd rfl (hv n)
    | bool b => rfl
    | str s => rfl
    | float => rfl
    | none => rfl
  · intro v i _
    rfl

/-- Witness for C4: `-1` fails with the range error, `2^64` fails
with the range error, the string `"x"` fails with the wrong-kind
error, and the node constructed from `5` lowers to one instruction. -/
theorem int_construction_failures_witness :
    Int.init (.int (-1)) =
      .error (.invalidLiteralRange ("Int " ++ toString (-1 : ℤ) ++ " is out of range")) ∧
    Int.init (.int (2 ^ 64)) =
      .error (.invalidLiteralRange ("Int " ++ toString ((2 : ℤ) ^ 64) ++ " is out of range")) ∧
    Int.init (.str "x") =
      .error (.invalidLiteralType ("invalid input type " ++ (PyVal.str "x").typeName ++ " to Int")) ∧
    (Int.teal ⟨5⟩).ops.length = 1 :=
  ⟨int_construction_failures.1 (-1) (Or.inl (by decide)),
   int_construction_failures.1 (2 ^ 64) (Or.inr (by decide)),
   int_construction_failures.2.1 (.str "x") (fun n h => by cases h),
   int_construction_failures.2.2 (.int 5) ⟨5⟩ (by decide)⟩

/-- C5: for every name absent from the enum literal table, `EnumInt`
construction fails with `UnknownEnumValueError` naming the input, and
no node is produced. -/
theorem enumInt_unknown_name_fails (name : String) (h : enumLookup name = none) :
    EnumInt.init name = .error (.unknownEnumValue ("Unknown int enum value: " ++ name)) := by
  simp [EnumInt.init, h]

/-- Witness for C5: `"CreateApplication"` is not in the table and is
rejected at construction time. -/
theorem enumInt_unknown_name_fails_witness :
    EnumInt.init "CreateApplication" =
      .error (.unknownEnumValue ("Unknown int enum value: " ++ "CreateApplication")) :=
  enumInt_unknown_name_fails "CreateApplication" (by decide)

/-- C7: `type_of` is a total structural function taking no Lowering
Context, and lowering leaves every node unchanged, so `type_of` gives
the same answer before lowering, after lowering under any context, and
without ever lowering. -/
theorem type_of_stable_under_lower (n : ExprNode) (options : CompileOptions) :
    (n.lower options).2 = n ∧
    ((n.lower options).2).type_of = n.type_of ∧
    (∀ options' : CompileOptions,
      ((n.lower options).2).type_of = ((n.lower options').2).type_of) := by
  cases n <;> exact ⟨rfl, rfl, fun _ => rfl⟩

/-- C9: the flat enum literal table maps distinct names from the two
semantic domains to the same integers, so their lowered instructions
are identical: `"OptIn"` (completion action) and `"pay"` (transaction
type) both lower to `int 1`, and `"NoOp"` and `"unknown"` both lower
to `int 0`; all four names construct successfully. -/
theorem enum_domains_collide :
    EnumInt.init "OptIn" = .ok ⟨"OptIn"⟩ ∧
    EnumInt.init "pay" = .ok ⟨"pay"⟩ ∧
    EnumInt.init "NoOp" = .ok ⟨"NoOp"⟩ ∧
    EnumInt.init "unknown" = .ok ⟨"unknown"⟩ ∧
    EnumInt.teal ⟨"OptIn"⟩ = EnumInt.teal ⟨"pay"⟩ ∧
    EnumInt.teal ⟨"OptIn"⟩ = some ⟨[⟨Op.int, [Operand.int 1]⟩]⟩ ∧
    EnumInt.teal ⟨"NoOp"⟩ = EnumInt.teal ⟨"unknown"⟩ ∧
    EnumInt.teal ⟨"NoOp"⟩ = some ⟨[⟨Op.int, [Operand.int 0]⟩]⟩ := by
  decide

/-- C10: constructing `Int` from a boolean fails with the wrong-kind
error for both `True` and `False`, because the constructor tests the
input's exact runtime type and `bool` is not exactly `int`; booleans
are never accepted as 1 or 0. -/
theorem int_rejects_bool :
    Int.init (.bool true) =
      .error (.invalidLiteralType ("invalid input type bool to Int")) ∧
    Int.init (.bool false) =
      .error (.invalidLiteralType ("invalid input type bool to Int")) ∧
    (∀ i : Int, Int.init (.bool true) ≠ .ok i) ∧
    (∀ i : Int, Int.init (.bool false) ≠ .ok i) := by
  refine ⟨rfl, rfl, ?_, ?_⟩ <;> intro i h <;> cases h

end PyTeal
